import Mathlib

/-!
# CIAA Firmware update module: configuration block (`UPDT_config.c`)

A shallow embedding of `modules/update/src/UPDT_config.c` and the properties of
its codec (`UPDT_configParse`, `UPDT_configFormat`), of the validation performed
by `UPDT_configSet`, of the merge-and-write step `UPDT_configWrite` and of
`UPDT_configSetResponse`.

Modelling conventions.

* Machine integers are natural numbers; a `uint8_t` store reduces modulo `2^8`,
  a `uint32_t` load is assembled from four byte cells each read modulo `2^8`.
* A C pointer to bytes is modelled by the memory region it addresses, a function
  from the offset to the byte cell (`Bytes`).  Pointer validity (the two
  `assert(NULL != ...)` of `UPDT_configParse`) and the declared extent of the
  arrays are not represented.
* `ciaaPOSIX_assert` aborts the operation: the embedded function returns `none`.
* The module's static variables and the flash region that holds the
  configuration form the explicit state `UPDT_state`.
* The host byte order is the parameter `bigEndian`; the status constants of
  `UPDT_config.h` are the parameter `UPDT_configConsts`.
-/

namespace UPDT

/-! ## Data model -/

/-- Memory region addressed from a byte pointer: offset to byte cell. -/
abbrev Bytes := Nat → Nat

/-- The `UPDT_configType` structure of the source (lines 73-85). -/
structure UPDT_configType where
  reserved1 : Nat
  firmware_version : Nat
  bootloader_flags : Nat
  bootloader_version : Nat
  reserved2 : Nat
  application_version : Nat
  vendor_id : Nat
  model_id : Nat
  unique_id : Nat
  data_size : Nat
deriving DecidableEq, Repr

/-- Flash memory address where the configuration is stored (line 68). -/
def UPDT_CONFIG_ADDRESS : Nat := 0x0

/-- Configuration size constant of the source (line 71). -/
def UPDT_CONFIG_SIZE : Nat := 0x18

/-- The status constants of `UPDT_config.h`, which the source file uses but does
not define; they are a parameter of the embedding. -/
structure UPDT_configConsts where
  UPDT_CONFIG_ERROR_INVALID_SIZE : Nat
  UPDT_CONFIG_ERROR_RESERVED : Nat
  UPDT_CONFIG_ERROR_BOOTLOADER_FLAGS : Nat
  UPDT_CONFIG_ERROR_BOOTLOADER_VERSION : Nat
  UPDT_CONFIG_ERROR_VENDOR_ID : Nat
  UPDT_CONFIG_ERROR_MODEL_ID : Nat
  UPDT_CONFIG_ERROR_UNIQUE_ID : Nat
  UPDT_CONFIG_WARNING_FIRMWARE_VERSION : Nat
  UPDT_CONFIG_WARNING_APPLICATION_VERSION : Nat
deriving DecidableEq, Repr

/-- The module's static variables (lines 91-95) together with the flash region
of the block store that holds the configuration. -/
structure UPDT_state where
  UPDT_config_new : UPDT_configType
  UPDT_config_old : UPDT_configType
  UPDT_config_buffer : Bytes
  UPDT_config_fd : Int
  UPDT_config_flags : Nat
  store : Bytes

/-! ## Byte order primitives -/

/-- Reversal of the four bytes of a 32-bit word. -/
def bswap32 (w : Nat) : Nat :=
  (w % 256) * 2 ^ 24 + (w / 2 ^ 8 % 256) * 2 ^ 16 + (w / 2 ^ 16 % 256) * 2 ^ 8
    + (w / 2 ^ 24 % 256)

/-- Reversal of the eight bytes of a 64-bit word. -/
def bswap64 (w : Nat) : Nat :=
  (w % 256) * 2 ^ 56 + (w / 2 ^ 8 % 256) * 2 ^ 48 + (w / 2 ^ 16 % 256) * 2 ^ 40
    + (w / 2 ^ 24 % 256) * 2 ^ 32 + (w / 2 ^ 32 % 256) * 2 ^ 24
    + (w / 2 ^ 40 % 256) * 2 ^ 16 + (w / 2 ^ 48 % 256) * 2 ^ 8 + (w / 2 ^ 56 % 256)

/-- Modelled from the spec: `UPDT_utilsNtohl` of `UPDT_utils.c`, the given
network-to-host conversion of a 32-bit word: the identity on a big-endian host,
the byte reversal on a little-endian host. -/
def UPDT_utilsNtohl (bigEndian : Bool) (netlong : Nat) : Nat :=
  if bigEndian then netlong % 2 ^ 32 else bswap32 netlong

/-- Modelled from the spec: `UPDT_utilsNtohll` of `UPDT_utils.c`, the given
network-to-host conversion of a 64-bit word. -/
def UPDT_utilsNtohll (bigEndian : Bool) (netll : Nat) : Nat :=
  if bigEndian then netll % 2 ^ 64 else bswap64 netll

/-- The host's load `*(const uint32_t *)(p + off)` of four byte cells. -/
def load32 (bigEndian : Bool) (p : Bytes) (off : Nat) : Nat :=
  if bigEndian then
    (p off % 256) * 2 ^ 24 + (p (off + 1) % 256) * 2 ^ 16 + (p (off + 2) % 256) * 2 ^ 8
      + p (off + 3) % 256
  else
    p off % 256 + (p (off + 1) % 256) * 2 ^ 8 + (p (off + 2) % 256) * 2 ^ 16
      + (p (off + 3) % 256) * 2 ^ 24

/-- The host's load `*(const uint64_t *)(p + off)` of eight byte cells. -/
def load64 (bigEndian : Bool) (p : Bytes) (off : Nat) : Nat :=
  if bigEndian then
    (p off % 256) * 2 ^ 56 + (p (off + 1) % 256) * 2 ^ 48 + (p (off + 2) % 256) * 2 ^ 40
      + (p (off + 3) % 256) * 2 ^ 32 + (p (off + 4) % 256) * 2 ^ 24
      + (p (off + 5) % 256) * 2 ^ 16 + (p (off + 6) % 256) * 2 ^ 8 + p (off + 7) % 256
  else
    p off % 256 + (p (off + 1) % 256) * 2 ^ 8 + (p (off + 2) % 256) * 2 ^ 16
      + (p (off + 3) % 256) * 2 ^ 24 + (p (off + 4) % 256) * 2 ^ 32
      + (p (off + 5) % 256) * 2 ^ 40 + (p (off + 6) % 256) * 2 ^ 48
      + (p (off + 7) % 256) * 2 ^ 56

/-- The store `buf[i] = v` of a value converted to `uint8_t`. -/
def setByte (buf : Bytes) (i v : Nat) : Bytes :=
  fun j => if j = i then v % 256 else buf j

/-! ## The codec -/

/-- The function `UPDT_configParse` (lines 100-128).  `ptr` is the payload seen
as 32-bit words, so `*(ptr + k)` loads the four bytes at offset `4 * k`.  The
`size` argument is not used by the source. -/
def UPDT_configParse (bigEndian : Bool) (payload : Bytes) (_size : Nat) :
    UPDT_configType :=
  let word0 := UPDT_utilsNtohl bigEndian (load32 bigEndian payload 0)
  let word1 := UPDT_utilsNtohl bigEndian (load32 bigEndian payload 4)
  let word2 := UPDT_utilsNtohl bigEndian (load32 bigEndian payload 8)
  let word3 := UPDT_utilsNtohl bigEndian (load32 bigEndian payload 12)
  { reserved1 := 0xFF &&& (word0 >>> 24)
    firmware_version := 0xFFFFFF &&& word0
    bootloader_flags := 0xFF &&& (word1 >>> 24)
    bootloader_version := 0xFFFFFF &&& word1
    reserved2 := 0xFF &&& (word2 >>> 24)
    application_version := 0xFFFFFF &&& word2
    vendor_id := 0xFF &&& (word3 >>> 24)
    model_id := 0xFFFFFF &&& word3
    unique_id := UPDT_utilsNtohll bigEndian (load64 bigEndian payload 16)
    data_size := UPDT_utilsNtohl bigEndian (load32 bigEndian payload 24) }

/-- The byte stores of `UPDT_configFormat` (lines 139-175), in source order. -/
def UPDT_configFormat_stores (config_buffer : Bytes) (info : UPDT_configType) : Bytes :=
  let b := setByte config_buffer 0 info.reserved1
  let b := setByte b 1 (info.firmware_version >>> 16)
  let b := setByte b 2 (info.firmware_version >>> 8)
  let b := setByte b 3 info.firmware_version
  let b := setByte b 4 info.bootloader_flags
  let b := setByte b 5 (info.bootloader_version >>> 16)
  let b := setByte b 6 (info.bootloader_version >>> 8)
  let b := setByte b 7 info.bootloader_version
  let b := setByte b 8 info.reserved2
  let b := setByte b 9 (info.application_version >>> 16)
  let b := setByte b 10 (info.application_version >>> 8)
  let b := setByte b 11 info.application_version
  let b := setByte b 12 info.vendor_id
  let b := setByte b 13 (info.model_id >>> 16)
  let b := setByte b 14 (info.model_id >>> 8)
  let b := setByte b 15 info.model_id
  let b := setByte b 16 (info.unique_id >>> 56)
  let b := setByte b 17 (info.unique_id >>> 48)
  let b := setByte b 18 (info.unique_id >>> 40)
  let b := setByte b 19 (info.unique_id >>> 32)
  let b := setByte b 20 (info.unique_id >>> 24)
  let b := setByte b 21 (info.unique_id >>> 16)
  let b := setByte b 22 (info.unique_id >>> 8)
  let b := setByte b 23 info.unique_id
  let b := setByte b 24 (info.data_size >>> 24)
  let b := setByte b 25 (info.data_size >>> 16)
  let b := setByte b 26 (info.data_size >>> 8)
  setByte b 27 info.data_size

/-- The function `UPDT_configFormat` (lines 135-176): aborts unless
`data_size == 28`, then stores the 28 bytes. -/
def UPDT_configFormat (config_buffer : Bytes) (data_size : Nat) (info : UPDT_configType) :
    Option Bytes :=
  if data_size = 28 then some (UPDT_configFormat_stores config_buffer info) else none

/-! ## The block store and the operations of the module -/

/-- Modelled from the spec: the block store's positioned write, which the source
reaches through `ciaaPOSIX_lseek` and `ciaaPOSIX_write` (not part of this
module): the `nbyte` cells of the store from position `pos` take the first
`nbyte` cells of the buffer, and `nbyte` is reported as written. -/
def ciaaPOSIX_write (store : Bytes) (pos : Nat) (buf : Bytes) (nbyte : Nat) :
    Bytes × Int :=
  (fun i => if pos ≤ i ∧ i < pos + nbyte then buf (i - pos) else store i, (nbyte : Int))

/-- The statement `if (c) { UPDT_config_flags |= k; }`. -/
def orIf (c : Prop) [Decidable c] (flags k : Nat) : Nat :=
  if c then flags ||| k else flags

/-- The validation statements of `UPDT_configSet` (lines 195-238), in source
order, acting on `UPDT_config_flags`.  The first condition is the C expression
`0 != reserved1 | reserved2`, in which `!=` binds tighter than `|`. -/
def UPDT_configSet_checks (K : UPDT_configConsts) (new old : UPDT_configType)
    (flags : Nat) : Nat :=
  let flags := orIf (((if 0 ≠ new.reserved1 then 1 else 0) ||| new.reserved2) ≠ 0)
    flags K.UPDT_CONFIG_ERROR_RESERVED
  let flags := orIf (new.bootloader_flags ≠ 0) flags K.UPDT_CONFIG_ERROR_BOOTLOADER_FLAGS
  let flags := orIf (old.bootloader_version > new.application_version)
    flags K.UPDT_CONFIG_ERROR_BOOTLOADER_VERSION
  let flags := orIf (old.vendor_id ≠ new.vendor_id) flags K.UPDT_CONFIG_ERROR_VENDOR_ID
  let flags := orIf (old.model_id ≠ new.model_id) flags K.UPDT_CONFIG_ERROR_MODEL_ID
  let flags := orIf (old.unique_id ≠ new.unique_id) flags K.UPDT_CONFIG_ERROR_UNIQUE_ID
  let flags := orIf (old.firmware_version ≥ new.firmware_version)
    flags K.UPDT_CONFIG_WARNING_FIRMWARE_VERSION
  let flags := orIf (old.application_version ≥ new.application_version)
    flags K.UPDT_CONFIG_WARNING_APPLICATION_VERSION
  flags

/-- The function `UPDT_configSet` (lines 183-241).  The candidate is parsed from
the payload, the persisted record from the flash region at
`UPDT_CONFIG_ADDRESS`.  The source ends in `return ret;` with no `ret`
declared; the status is what the function leaves in `UPDT_config_flags`. -/
def UPDT_configSet (K : UPDT_configConsts) (bigEndian : Bool) (st : UPDT_state)
    (config : Bytes) (size : Nat) : UPDT_state :=
  if UPDT_CONFIG_SIZE ≠ size then
    { st with UPDT_config_flags := K.UPDT_CONFIG_ERROR_INVALID_SIZE }
  else
    let new := UPDT_configParse bigEndian config UPDT_CONFIG_SIZE
    let old := UPDT_configParse bigEndian
      (fun i => st.store (UPDT_CONFIG_ADDRESS + i)) UPDT_CONFIG_SIZE
    { st with
      UPDT_config_new := new
      UPDT_config_old := old
      UPDT_config_flags := UPDT_configSet_checks K new old st.UPDT_config_flags }

/-- The function `UPDT_configWrite` (lines 245-264).  The `if` on the result of
`ciaaPOSIX_lseek` ends in `;`, so the block holding the write always runs. -/
def UPDT_configWrite (st : UPDT_state) : Option (UPDT_state × Int) :=
  if st.UPDT_config_fd ≥ 0 then
    let old := { st.UPDT_config_old with
      firmware_version := st.UPDT_config_new.firmware_version
      application_version := st.UPDT_config_new.application_version }
    match UPDT_configFormat st.UPDT_config_buffer 28 old with
    | none => none
    | some buffer =>
      let w := ciaaPOSIX_write st.store UPDT_CONFIG_ADDRESS buffer 28
      some ({ st with
        UPDT_config_old := old
        UPDT_config_buffer := buffer
        store := w.1 }, w.2)
  else none

/-- The function `UPDT_configInit` (lines 267-271). -/
def UPDT_configInit (st : UPDT_state) (fd : Int) : UPDT_state × Int :=
  ({ st with UPDT_config_fd := fd }, 0)

/-- The function `UPDT_configClear` (lines 274-277). -/
def UPDT_configClear (st : UPDT_state) : UPDT_state :=
  { st with UPDT_config_fd := -1 }

/-- The function `UPDT_configSetResponse` (lines 280-291): the new state, the
destination buffer and the returned value. -/
def UPDT_configSetResponse (bigEndian : Bool) (st : UPDT_state) (buffer : Bytes)
    (size : Nat) : Option (UPDT_state × Bytes × Int) :=
  match UPDT_configFormat buffer size st.UPDT_config_old with
  | none => none
  | some b =>
    let flags := UPDT_utilsNtohl bigEndian st.UPDT_config_flags
    let b := setByte b size (flags >>> 24)
    let b := setByte b (size + 1) (flags >>> 16)
    let b := setByte b (size + 2) (flags >>> 8)
    let b := setByte b (size + 3) flags
    some ({ st with UPDT_config_flags := flags }, b, 0)

/-- A record whose fields fit the widths the data model declares for them. -/
def FitsWidths (r : UPDT_configType) : Prop :=
  r.reserved1 < 2 ^ 8 ∧ r.firmware_version < 2 ^ 24 ∧ r.bootloader_flags < 2 ^ 8 ∧
  r.bootloader_version < 2 ^ 24 ∧ r.reserved2 < 2 ^ 8 ∧ r.application_version < 2 ^ 24 ∧
  r.vendor_id < 2 ^ 8 ∧ r.model_id < 2 ^ 24 ∧ r.unique_id < 2 ^ 64 ∧ r.data_size < 2 ^ 32

instance (r : UPDT_configType) : Decidable (FitsWidths r) := by
  unfold FitsWidths; infer_instance

/-! ## Reference definitions of the byte layout -/

/-- The `n` bytes of `v` in big-endian order, most significant byte first. -/
def bigEndianBytes : Nat → Nat → List Nat
  | 0, _ => []
  | n + 1, v => (v / 256 ^ n % 256) :: bigEndianBytes n v

/-- The value a list of bytes denotes in big-endian order. -/
def bigEndianValue (l : List Nat) : Nat :=
  l.foldl (fun acc x => acc * 256 + x) 0

/-- The 28-byte layout of a record as the specification words it: byte 0 is
reserved1, bytes 1-3 firmwareVersion, byte 4 bootloaderFlags, bytes 5-7
bootloaderVersion, byte 8 reserved2, bytes 9-11 applicationVersion, byte 12
vendorId, bytes 13-15 modelId, bytes 16-23 uniqueId, bytes 24-27 dataSize, every
multi-byte field most significant byte first. -/
def layoutSpec (r : UPDT_configType) : List Nat :=
  [r.reserved1] ++ bigEndianBytes 3 r.firmware_version ++
  [r.bootloader_flags] ++ bigEndianBytes 3 r.bootloader_version ++
  [r.reserved2] ++ bigEndianBytes 3 r.application_version ++
  [r.vendor_id] ++ bigEndianBytes 3 r.model_id ++
  bigEndianBytes 8 r.unique_id ++ bigEndianBytes 4 r.data_size

/-- A sample record within the declared widths. -/
def sampleRecord : UPDT_configType :=
  { reserved1 := 0x11, firmware_version := 0x010203, bootloader_flags := 0x22,
    bootloader_version := 0x040506, reserved2 := 0x33, application_version := 0x070809,
    vendor_id := 0x44, model_id := 0x0A0B0C, unique_id := 0x0102030405060708,
    data_size := 0xDEADBEEF }

/-- A sample memory region: cell `i` holds `i + 1` (reduced to a byte). -/
def sampleBytes : Bytes := fun i => (i + 1) % 256

/-! ## Status flags and scenarios -/

/-- The eight constants the validation may raise, in source order. -/
def validationConsts (K : UPDT_configConsts) : List Nat :=
  [K.UPDT_CONFIG_ERROR_RESERVED, K.UPDT_CONFIG_ERROR_BOOTLOADER_FLAGS,
   K.UPDT_CONFIG_ERROR_BOOTLOADER_VERSION, K.UPDT_CONFIG_ERROR_VENDOR_ID,
   K.UPDT_CONFIG_ERROR_MODEL_ID, K.UPDT_CONFIG_ERROR_UNIQUE_ID,
   K.UPDT_CONFIG_WARNING_FIRMWARE_VERSION, K.UPDT_CONFIG_WARNING_APPLICATION_VERSION]

/-- The validation constants are independent flags, as the specification says of
the status bitmask: none is zero and no two of them share a bit. -/
def Independent (K : UPDT_configConsts) : Prop :=
  (∀ k ∈ validationConsts K, k ≠ 0) ∧
  (validationConsts K).Pairwise (fun a b => a &&& b = 0)

instance (K : UPDT_configConsts) : Decidable (Independent K) := by
  unfold Independent; infer_instance

/-- The flag a check contributes: the constant when the condition holds. -/
def flagIf (c : Prop) [Decidable c] (k : Nat) : Nat := if c then k else 0

/-- The validator as the specification defines it: the union of the flags whose
conditions hold. -/
def checkSpec (K : UPDT_configConsts) (candidate persisted : UPDT_configType) : Nat :=
  flagIf (candidate.reserved1 ≠ 0 ∨ candidate.reserved2 ≠ 0) K.UPDT_CONFIG_ERROR_RESERVED |||
  flagIf (candidate.bootloader_flags ≠ 0) K.UPDT_CONFIG_ERROR_BOOTLOADER_FLAGS |||
  flagIf (persisted.bootloader_version > candidate.application_version)
    K.UPDT_CONFIG_ERROR_BOOTLOADER_VERSION |||
  flagIf (persisted.vendor_id ≠ candidate.vendor_id) K.UPDT_CONFIG_ERROR_VENDOR_ID |||
  flagIf (persisted.model_id ≠ candidate.model_id) K.UPDT_CONFIG_ERROR_MODEL_ID |||
  flagIf (persisted.unique_id ≠ candidate.unique_id) K.UPDT_CONFIG_ERROR_UNIQUE_ID |||
  flagIf (persisted.firmware_version ≥ candidate.firmware_version)
    K.UPDT_CONFIG_WARNING_FIRMWARE_VERSION |||
  flagIf (persisted.application_version ≥ candidate.application_version)
    K.UPDT_CONFIG_WARNING_APPLICATION_VERSION

/-- Sample values of the status constants, one bit each. -/
def sampleConsts : UPDT_configConsts :=
  { UPDT_CONFIG_ERROR_INVALID_SIZE := 0x100
    UPDT_CONFIG_ERROR_RESERVED := 0x01
    UPDT_CONFIG_ERROR_BOOTLOADER_FLAGS := 0x02
    UPDT_CONFIG_ERROR_BOOTLOADER_VERSION := 0x04
    UPDT_CONFIG_ERROR_VENDOR_ID := 0x08
    UPDT_CONFIG_ERROR_MODEL_ID := 0x10
    UPDT_CONFIG_ERROR_UNIQUE_ID := 0x20
    UPDT_CONFIG_WARNING_FIRMWARE_VERSION := 0x40
    UPDT_CONFIG_WARNING_APPLICATION_VERSION := 0x80 }

/-- A memory region of zero bytes. -/
def zeroBytes : Bytes := fun _ => 0

/-- The persisted record of the end-to-end scenarios. -/
def scenarioPersisted : UPDT_configType :=
  { reserved1 := 0, firmware_version := 1, bootloader_flags := 0, bootloader_version := 2,
    reserved2 := 0, application_version := 1, vendor_id := 5, model_id := 9,
    unique_id := 12345, data_size := 0 }

/-- The candidate of scenario 1: the persisted record with both versions 2. -/
def scenarioCandidate : UPDT_configType :=
  { scenarioPersisted with firmware_version := 2, application_version := 2 }

/-- The candidate of scenario 2: vendorId 6 against the persisted 5. -/
def scenarioCandidateVendor : UPDT_configType :=
  { scenarioCandidate with vendor_id := 6 }

/-- The 28 bytes of a record, the rest of the region zero. -/
def payloadOf (r : UPDT_configType) : Bytes := UPDT_configFormat_stores zeroBytes r

/-- The state of the scenarios: the store holds the persisted record, a handle
is bound, the status is empty. -/
def scenarioState : UPDT_state :=
  { UPDT_config_new := ⟨0, 0, 0, 0, 0, 0, 0, 0, 0, 0⟩
    UPDT_config_old := ⟨0, 0, 0, 0, 0, 0, 0, 0, 0, 0⟩
    UPDT_config_buffer := zeroBytes
    UPDT_config_fd := 3
    UPDT_config_flags := 0
    store := payloadOf scenarioPersisted }

/-! ## Further reference definitions and samples -/

/-- A record with each packed field reduced to its declared width: reserved1,
bootloaderFlags, reserved2 and vendorId modulo 2^8, the three versions and
modelId modulo 2^24. -/
def reduceWidths (r : UPDT_configType) : UPDT_configType :=
  { r with
    reserved1 := r.reserved1 % 2 ^ 8
    firmware_version := r.firmware_version % 2 ^ 24
    bootloader_flags := r.bootloader_flags % 2 ^ 8
    bootloader_version := r.bootloader_version % 2 ^ 24
    reserved2 := r.reserved2 % 2 ^ 8
    application_version := r.application_version % 2 ^ 24
    vendor_id := r.vendor_id % 2 ^ 8
    model_id := r.model_id % 2 ^ 24 }

/-- A sample record whose packed fields exceed their declared widths. -/
def oversizedRecord : UPDT_configType :=
  { reserved1 := 0xABCDEF11, firmware_version := 0xFF010203, bootloader_flags := 0x12345622,
    bootloader_version := 0x99040506, reserved2 := 0xFFFFFF33,
    application_version := 0x80070809, vendor_id := 0x00000144, model_id := 0x770A0B0C,
    unique_id := 0x0102030405060708, data_size := 0xDEADBEEF }

/-! ## Arithmetic of the byte order primitives -/

theorem and_FF (x : Nat) : 0xFF &&& x = x % 256 := by
  rw [Nat.land_comm]
  exact Nat.and_pow_two_sub_one_eq_mod x 8

theorem and_FFFFFF (x : Nat) : 0xFFFFFF &&& x = x % 2 ^ 24 := by
  rw [Nat.land_comm]
  exact Nat.and_pow_two_sub_one_eq_mod x 24

/-- On either host, converting the loaded word yields the big-endian value of
the four bytes. -/
theorem ntohl_load32 (be : Bool) (p : Bytes) (off : Nat) :
    UPDT_utilsNtohl be (load32 be p off) =
      (p off % 256) * 2 ^ 24 + (p (off + 1) % 256) * 2 ^ 16 + (p (off + 2) % 256) * 2 ^ 8
        + p (off + 3) % 256 := by
  cases be <;> simp only [UPDT_utilsNtohl, load32, bswap32, if_true, if_false,
    Bool.false_eq_true] <;> omega

/-- Byte reversal of a 64-bit word given by its eight bytes, least significant
first. -/
theorem bswap64_bytes (a0 a1 a2 a3 a4 a5 a6 a7 : Nat) (h0 : a0 < 256) (h1 : a1 < 256)
    (h2 : a2 < 256) (h3 : a3 < 256) (h4 : a4 < 256) (h5 : a5 < 256) (h6 : a6 < 256)
    (h7 : a7 < 256) :
    bswap64 (a0 + a1 * 2 ^ 8 + a2 * 2 ^ 16 + a3 * 2 ^ 24 + a4 * 2 ^ 32 + a5 * 2 ^ 40
      + a6 * 2 ^ 48 + a7 * 2 ^ 56) =
    a0 * 2 ^ 56 + a1 * 2 ^ 48 + a2 * 2 ^ 40 + a3 * 2 ^ 32 + a4 * 2 ^ 24 + a5 * 2 ^ 16
      + a6 * 2 ^ 8 + a7 := by
  have e0 : (a0 + a1 * 2 ^ 8 + a2 * 2 ^ 16 + a3 * 2 ^ 24 + a4 * 2 ^ 32 + a5 * 2 ^ 40
      + a6 * 2 ^ 48 + a7 * 2 ^ 56) % 256 = a0 := by omega
  have e1 : (a0 + a1 * 2 ^ 8 + a2 * 2 ^ 16 + a3 * 2 ^ 24 + a4 * 2 ^ 32 + a5 * 2 ^ 40
      + a6 * 2 ^ 48 + a7 * 2 ^ 56) / 2 ^ 8 % 256 = a1 := by omega
  have e2 : (a0 + a1 * 2 ^ 8 + a2 * 2 ^ 16 + a3 * 2 ^ 24 + a4 * 2 ^ 32 + a5 * 2 ^ 40
      + a6 * 2 ^ 48 + a7 * 2 ^ 56) / 2 ^ 16 % 256 = a2 := by omega
  have e3 : (a0 + a1 * 2 ^ 8 + a2 * 2 ^ 16 + a3 * 2 ^ 24 + a4 * 2 ^ 32 + a5 * 2 ^ 40
      + a6 * 2 ^ 48 + a7 * 2 ^ 56) / 2 ^ 24 % 256 = a3 := by omega
  have e4 : (a0 + a1 * 2 ^ 8 + a2 * 2 ^ 16 + a3 * 2 ^ 24 + a4 * 2 ^ 32 + a5 * 2 ^ 40
      + a6 * 2 ^ 48 + a7 * 2 ^ 56) / 2 ^ 32 % 256 = a4 := by omega
  have e5 : (a0 + a1 * 2 ^ 8 + a2 * 2 ^ 16 + a3 * 2 ^ 24 + a4 * 2 ^ 32 + a5 * 2 ^ 40
      + a6 * 2 ^ 48 + a7 * 2 ^ 56) / 2 ^ 40 % 256 = a5 := by omega
  have e6 : (a0 + a1 * 2 ^ 8 + a2 * 2 ^ 16 + a3 * 2 ^ 24 + a4 * 2 ^ 32 + a5 * 2 ^ 40
      + a6 * 2 ^ 48 + a7 * 2 ^ 56) / 2 ^ 48 % 256 = a6 := by omega
  have e7 : (a0 + a1 * 2 ^ 8 + a2 * 2 ^ 16 + a3 * 2 ^ 24 + a4 * 2 ^ 32 + a5 * 2 ^ 40
      + a6 * 2 ^ 48 + a7 * 2 ^ 56) / 2 ^ 56 % 256 = a7 := by omega
  unfold bswap64
  rw [e0, e1, e2, e3, e4, e5, e6, e7]

/-- On either host, converting the loaded 64-bit word yields the big-endian
value of the eight bytes. -/
theorem ntohll_load64 (be : Bool) (p : Bytes) (off : Nat) :
    UPDT_utilsNtohll be (load64 be p off) =
      (p off % 256) * 2 ^ 56 + (p (off + 1) % 256) * 2 ^ 48 + (p (off + 2) % 256) * 2 ^ 40
      + (p (off + 3) % 256) * 2 ^ 32 + (p (off + 4) % 256) * 2 ^ 24
      + (p (off + 5) % 256) * 2 ^ 16 + (p (off + 6) % 256) * 2 ^ 8 + p (off + 7) % 256 := by
  have h0 := Nat.mod_lt (p off) (show 256 > 0 by decide)
  have h1 := Nat.mod_lt (p (off + 1)) (show 256 > 0 by decide)
  have h2 := Nat.mod_lt (p (off + 2)) (show 256 > 0 by decide)
  have h3 := Nat.mod_lt (p (off + 3)) (show 256 > 0 by decide)
  have h4 := Nat.mod_lt (p (off + 4)) (show 256 > 0 by decide)
  have h5 := Nat.mod_lt (p (off + 5)) (show 256 > 0 by decide)
  have h6 := Nat.mod_lt (p (off + 6)) (show 256 > 0 by decide)
  have h7 := Nat.mod_lt (p (off + 7)) (show 256 > 0 by decide)
  cases be
  · simp only [UPDT_utilsNtohll, load64, if_false, Bool.false_eq_true]
    exact bswap64_bytes _ _ _ _ _ _ _ _ h0 h1 h2 h3 h4 h5 h6 h7
  · simp only [UPDT_utilsNtohll, load64, if_true]
    generalize p off % 256 = a0 at *
    generalize p (off + 1) % 256 = a1 at *
    generalize p (off + 2) % 256 = a2 at *
    generalize p (off + 3) % 256 = a3 at *
    generalize p (off + 4) % 256 = a4 at *
    generalize p (off + 5) % 256 = a5 at *
    generalize p (off + 6) % 256 = a6 at *
    generalize p (off + 7) % 256 = a7 at *
    omega

/-! ## The codec in terms of bytes -/

/-- The record `UPDT_configParse` reads, field by field, as big-endian values of
the byte cells. -/
theorem parse_eq (be : Bool) (b : Bytes) (n : Nat) :
    UPDT_configParse be b n =
      { reserved1 := b 0 % 256
        firmware_version := (b 1 % 256) * 2 ^ 16 + (b 2 % 256) * 2 ^ 8 + b 3 % 256
        bootloader_flags := b 4 % 256
        bootloader_version := (b 5 % 256) * 2 ^ 16 + (b 6 % 256) * 2 ^ 8 + b 7 % 256
        reserved2 := b 8 % 256
        application_version := (b 9 % 256) * 2 ^ 16 + (b 10 % 256) * 2 ^ 8 + b 11 % 256
        vendor_id := b 12 % 256
        model_id := (b 13 % 256) * 2 ^ 16 + (b 14 % 256) * 2 ^ 8 + b 15 % 256
        unique_id := (b 16 % 256) * 2 ^ 56 + (b 17 % 256) * 2 ^ 48 + (b 18 % 256) * 2 ^ 40
          + (b 19 % 256) * 2 ^ 32 + (b 20 % 256) * 2 ^ 24 + (b 21 % 256) * 2 ^ 16
          + (b 22 % 256) * 2 ^ 8 + b 23 % 256
        data_size := (b 24 % 256) * 2 ^ 24 + (b 25 % 256) * 2 ^ 16 + (b 26 % 256) * 2 ^ 8
          + b 27 % 256 } := by
  simp only [UPDT_configParse, ntohl_load32, ntohll_load64, and_FF, and_FFFFFF,
    Nat.shiftRight_eq_div_pow, Nat.reduceAdd, UPDT_configType.mk.injEq]
  refine ⟨?_, ?_, ?_, ?_, ?_, ?_, ?_, ?_, ?_, ?_⟩ <;> first | trivial | omega

/-! ## The bytes stored by `UPDT_configFormat` -/

theorem stores_0 (buf : Bytes) (r : UPDT_configType) :
    UPDT_configFormat_stores buf r 0 = r.reserved1 % 256 := by
  simp [UPDT_configFormat_stores, setByte, Nat.shiftRight_eq_div_pow]

theorem stores_1 (buf : Bytes) (r : UPDT_configType) :
    UPDT_configFormat_stores buf r 1 = r.firmware_version / 2 ^ 16 % 256 := by
  simp [UPDT_configFormat_stores, setByte, Nat.shiftRight_eq_div_pow]

theorem stores_2 (buf : Bytes) (r : UPDT_configType) :
    UPDT_configFormat_stores buf r 2 = r.firmware_version / 2 ^ 8 % 256 := by
  simp [UPDT_configFormat_stores, setByte, Nat.shiftRight_eq_div_pow]

theorem stores_3 (buf : Bytes) (r : UPDT_configType) :
    UPDT_configFormat_stores buf r 3 = r.firmware_version % 256 := by
  simp [UPDT_configFormat_stores, setByte, Nat.shiftRight_eq_div_pow]

theorem stores_4 (buf : Bytes) (r : UPDT_configType) :
    UPDT_configFormat_stores buf r 4 = r.bootloader_flags % 256 := by
  simp [UPDT_configFormat_stores, setByte, Nat.shiftRight_eq_div_pow]

theorem stores_5 (buf : Bytes) (r : UPDT_configType) :
    UPDT_configFormat_stores buf r 5 = r.bootloader_version / 2 ^ 16 % 256 := by
  simp [UPDT_configFormat_stores, setByte, Nat.shiftRight_eq_div_pow]

theorem stores_6 (buf : Bytes) (r : UPDT_configType) :
    UPDT_configFormat_stores buf r 6 = r.bootloader_version / 2 ^ 8 % 256 := by
  simp [UPDT_configFormat_stores, setByte, Nat.shiftRight_eq_div_pow]

theorem stores_7 (buf : Bytes) (r : UPDT_configType) :
    UPDT_configFormat_stores buf r 7 = r.bootloader_version % 256 := by
  simp [UPDT_configFormat_stores, setByte, Nat.shiftRight_eq_div_pow]

theorem stores_8 (buf : Bytes) (r : UPDT_configType) :
    UPDT_configFormat_stores buf r 8 = r.reserved2 % 256 := by
  simp [UPDT_configFormat_stores, setByte, Nat.shiftRight_eq_div_pow]

theorem stores_9 (buf : Bytes) (r : UPDT_configType) :
    UPDT_configFormat_stores buf r 9 = r.application_version / 2 ^ 16 % 256 := by
  simp [UPDT_configFormat_stores, setByte, Nat.shiftRight_eq_div_pow]

theorem stores_10 (buf : Bytes) (r : UPDT_configType) :
    UPDT_configFormat_stores buf r 10 = r.application_version / 2 ^ 8 % 256 := by
  simp [UPDT_configFormat_stores, setByte, Nat.shiftRight_eq_div_pow]

theorem stores_11 (buf : Bytes) (r : UPDT_configType) :
    UPDT_configFormat_stores buf r 11 = r.application_version % 256 := by
  simp [UPDT_configFormat_stores, setByte, Nat.shiftRight_eq_div_pow]

theorem stores_12 (buf : Bytes) (r : UPDT_configType) :
    UPDT_configFormat_stores buf r 12 = r.vendor_id % 256 := by
  simp [UPDT_configFormat_stores, setByte, Nat.shiftRight_eq_div_pow]

theorem stores_13 (buf : Bytes) (r : UPDT_configType) :
    UPDT_configFormat_stores buf r 13 = r.model_id / 2 ^ 16 % 256 := by
  simp [UPDT_configFormat_stores, setByte, Nat.shiftRight_eq_div_pow]

theorem stores_14 (buf : Bytes) (r : UPDT_configType) :
    UPDT_configFormat_stores buf r 14 = r.model_id / 2 ^ 8 % 256 := by
  simp [UPDT_configFormat_stores, setByte, Nat.shiftRight_eq_div_pow]

theorem stores_15 (buf : Bytes) (r : UPDT_configType) :
    UPDT_configFormat_stores buf r 15 = r.model_id % 256 := by
  simp [UPDT_configFormat_stores, setByte, Nat.shiftRight_eq_div_pow]

theorem stores_16 (buf : Bytes) (r : UPDT_configType) :
    UPDT_configFormat_stores buf r 16 = r.unique_id / 2 ^ 56 % 256 := by
  simp [UPDT_configFormat_stores, setByte, Nat.shiftRight_eq_div_pow]

theorem stores_17 (buf : Bytes) (r : UPDT_configType) :
    UPDT_configFormat_stores buf r 17 = r.unique_id / 2 ^ 48 % 256 := by
  simp [UPDT_configFormat_stores, setByte, Nat.shiftRight_eq_div_pow]

theorem stores_18 (buf : Bytes) (r : UPDT_configType) :
    UPDT_configFormat_stores buf r 18 = r.unique_id / 2 ^ 40 % 256 := by
  simp [UPDT_configFormat_stores, setByte, Nat.shiftRight_eq_div_pow]

theorem stores_19 (buf : Bytes) (r : UPDT_configType) :
    UPDT_configFormat_stores buf r 19 = r.unique_id / 2 ^ 32 % 256 := by
  simp [UPDT_configFormat_stores, setByte, Nat.shiftRight_eq_div_pow]

theorem stores_20 (buf : Bytes) (r : UPDT_configType) :
    UPDT_configFormat_stores buf r 20 = r.unique_id / 2 ^ 24 % 256 := by
  simp [UPDT_configFormat_stores, setByte, Nat.shiftRight_eq_div_pow]

theorem stores_21 (buf : Bytes) (r : UPDT_configType) :
    UPDT_configFormat_stores buf r 21 = r.unique_id / 2 ^ 16 % 256 := by
  simp [UPDT_configFormat_stores, setByte, Nat.shiftRight_eq_div_pow]

theorem stores_22 (buf : Bytes) (r : UPDT_configType) :
    UPDT_configFormat_stores buf r 22 = r.unique_id / 2 ^ 8 % 256 := by
  simp [UPDT_configFormat_stores, setByte, Nat.shiftRight_eq_div_pow]

theorem stores_23 (buf : Bytes) (r : UPDT_configType) :
    UPDT_configFormat_stores buf r 23 = r.unique_id % 256 := by
  simp [UPDT_configFormat_stores, setByte, Nat.shiftRight_eq_div_pow]

theorem stores_24 (buf : Bytes) (r : UPDT_configType) :
    UPDT_configFormat_stores buf r 24 = r.data_size / 2 ^ 24 % 256 := by
  simp [UPDT_configFormat_stores, setByte, Nat.shiftRight_eq_div_pow]

theorem stores_25 (buf : Bytes) (r : UPDT_configType) :
    UPDT_configFormat_stores buf r 25 = r.data_size / 2 ^ 16 % 256 := by
  simp [UPDT_configFormat_stores, setByte, Nat.shiftRight_eq_div_pow]

theorem stores_26 (buf : Bytes) (r : UPDT_configType) :
    UPDT_configFormat_stores buf r 26 = r.data_size / 2 ^ 8 % 256 := by
  simp [UPDT_configFormat_stores, setByte, Nat.shiftRight_eq_div_pow]

theorem stores_27 (buf : Bytes) (r : UPDT_configType) :
    UPDT_configFormat_stores buf r 27 = r.data_size % 256 := by
  simp [UPDT_configFormat_stores, setByte, Nat.shiftRight_eq_div_pow]

/-- The stores of `UPDT_configFormat` touch no cell from index 28 on. -/
theorem stores_ge (buf : Bytes) (r : UPDT_configType) (i : Nat) (h : 28 ≤ i) :
    UPDT_configFormat_stores buf r i = buf i := by
  simp only [UPDT_configFormat_stores, setByte]
  repeat (rw [if_neg (by omega)])

theorem be3 (v : Nat) :
    (v / 2 ^ 16 % 256 % 256) * 2 ^ 16 + (v / 2 ^ 8 % 256 % 256) * 2 ^ 8 + v % 256 % 256
      = v % 2 ^ 24 := by
  omega

theorem be4 (v : Nat) :
    (v / 2 ^ 24 % 256 % 256) * 2 ^ 24 + (v / 2 ^ 16 % 256 % 256) * 2 ^ 16
      + (v / 2 ^ 8 % 256 % 256) * 2 ^ 8 + v % 256 % 256 = v % 2 ^ 32 := by
  omega

theorem be8 (v : Nat) :
    (v / 2 ^ 56 % 256 % 256) * 2 ^ 56 + (v / 2 ^ 48 % 256 % 256) * 2 ^ 48
      + (v / 2 ^ 40 % 256 % 256) * 2 ^ 40 + (v / 2 ^ 32 % 256 % 256) * 2 ^ 32
      + (v / 2 ^ 24 % 256 % 256) * 2 ^ 24 + (v / 2 ^ 16 % 256 % 256) * 2 ^ 16
      + (v / 2 ^ 8 % 256 % 256) * 2 ^ 8 + v % 256 % 256 = v % 2 ^ 64 := by
  have e1 : v / 2 ^ 8 = v / 256 := rfl
  have e2 : v / 2 ^ 16 = v / 256 / 256 := by simp only [Nat.div_div_eq_div_mul]; rfl
  have e3 : v / 2 ^ 24 = v / 256 / 256 / 256 := by simp only [Nat.div_div_eq_div_mul]; rfl
  have e4 : v / 2 ^ 32 = v / 256 / 256 / 256 / 256 := by
    simp only [Nat.div_div_eq_div_mul]; rfl
  have e5 : v / 2 ^ 40 = v / 256 / 256 / 256 / 256 / 256 := by
    simp only [Nat.div_div_eq_div_mul]; rfl
  have e6 : v / 2 ^ 48 = v / 256 / 256 / 256 / 256 / 256 / 256 := by
    simp only [Nat.div_div_eq_div_mul]; rfl
  have e7 : v / 2 ^ 56 = v / 256 / 256 / 256 / 256 / 256 / 256 / 256 := by
    simp only [Nat.div_div_eq_div_mul]; rfl
  rw [e1, e2, e3, e4, e5, e6, e7]
  omega

/-- Parsing the bytes stored by `UPDT_configFormat` reduces every field of the
record to its declared width. -/
theorem parse_stores (be : Bool) (buf : Bytes) (n : Nat) (r : UPDT_configType) :
    UPDT_configParse be (UPDT_configFormat_stores buf r) n =
      { reserved1 := r.reserved1 % 2 ^ 8
        firmware_version := r.firmware_version % 2 ^ 24
        bootloader_flags := r.bootloader_flags % 2 ^ 8
        bootloader_version := r.bootloader_version % 2 ^ 24
        reserved2 := r.reserved2 % 2 ^ 8
        application_version := r.application_version % 2 ^ 24
        vendor_id := r.vendor_id % 2 ^ 8
        model_id := r.model_id % 2 ^ 24
        unique_id := r.unique_id % 2 ^ 64
        data_size := r.data_size % 2 ^ 32 } := by
  simp only [parse_eq, stores_0, stores_1,
    stores_2, stores_3, stores_4, stores_5, stores_6, stores_7, stores_8, stores_9,
    stores_10, stores_11, stores_12, stores_13, stores_14, stores_15, stores_16,
    stores_17, stores_18, stores_19, stores_20, stores_21, stores_22, stores_23,
    stores_24, stores_25, stores_26, stores_27, be3, be4, be8, UPDT_configType.mk.injEq]
  refine ⟨?_, ?_, ?_, ?_, ?_, ?_, ?_, ?_, ?_, ?_⟩ <;> first | trivial | omega

/-! ## Bitmask lemmas -/

theorem lor_eq_zero (a b : Nat) : a ||| b = 0 ↔ a = 0 ∧ b = 0 := by
  constructor
  · intro h
    have hbit : ∀ i, a.testBit i = false ∧ b.testBit i = false := by
      intro i
      have hi := congrArg (fun x => x.testBit i) h
      simpa [Nat.testBit_or] using hi
    exact ⟨Nat.eq_of_testBit_eq (fun i => by simp [(hbit i).1]),
      Nat.eq_of_testBit_eq (fun i => by simp [(hbit i).2])⟩
  · rintro ⟨rfl, rfl⟩
    rfl

/-- The C condition `0 != reserved1 | reserved2` holds exactly when one of the
two fields is not zero. -/
theorem reserved_condition (r1 r2 : Nat) :
    ((if 0 ≠ r1 then 1 else 0) ||| r2) ≠ 0 ↔ (r1 ≠ 0 ∨ r2 ≠ 0) := by
  rw [Ne, lor_eq_zero]
  by_cases h : r1 = 0
  · subst h; simp
  · have h0 : 0 ≠ r1 := fun e => h e.symm
    simp [h, h0]

theorem orIf_eq (c : Prop) [Decidable c] (f k : Nat) :
    orIf c f k = f ||| flagIf c k := by
  unfold orIf flagIf
  split <;> simp

theorem flagIf_congr (c d : Prop) [Decidable c] [Decidable d] (k : Nat) (h : c ↔ d) :
    flagIf c k = flagIf d k := by
  unfold flagIf
  by_cases hc : c
  · rw [if_pos hc, if_pos (h.mp hc)]
  · rw [if_neg hc, if_neg (fun x => hc (h.mpr x))]

/-- The validation statements add to the status the union the specification
defines. -/
theorem checks_eq_spec (K : UPDT_configConsts) (new old : UPDT_configType) (flags : Nat) :
    UPDT_configSet_checks K new old flags = flags ||| checkSpec K new old := by
  simp only [UPDT_configSet_checks, orIf_eq, checkSpec]
  rw [flagIf_congr _ _ _ (reserved_condition new.reserved1 new.reserved2)]
  simp only [Nat.or_assoc]

theorem flagIf_and_self (c : Prop) [Decidable c] (k : Nat) :
    flagIf c k &&& k = flagIf c k := by
  unfold flagIf; split <;> simp

theorem flagIf_and_disjoint (c : Prop) [Decidable c] (k m : Nat) (h : k &&& m = 0) :
    flagIf c k &&& m = 0 := by
  unfold flagIf; split <;> simp [h]

theorem flagIf_ne_zero (c : Prop) [Decidable c] (k : Nat) (h : k ≠ 0) :
    flagIf c k ≠ 0 ↔ c := by
  unfold flagIf; split <;> simp [*]

/-! ## Lemmas on the operations -/

/-- Under independence, masking the specified union with one validation constant
leaves that constant's own contribution. -/
theorem checkSpec_and (K : UPDT_configConsts) (hK : Independent K)
    (c p : UPDT_configType) :
    checkSpec K c p &&& K.UPDT_CONFIG_ERROR_RESERVED =
      flagIf (c.reserved1 ≠ 0 ∨ c.reserved2 ≠ 0) K.UPDT_CONFIG_ERROR_RESERVED ∧
    checkSpec K c p &&& K.UPDT_CONFIG_ERROR_BOOTLOADER_FLAGS =
      flagIf (c.bootloader_flags ≠ 0) K.UPDT_CONFIG_ERROR_BOOTLOADER_FLAGS ∧
    checkSpec K c p &&& K.UPDT_CONFIG_ERROR_BOOTLOADER_VERSION =
      flagIf (p.bootloader_version > c.application_version)
        K.UPDT_CONFIG_ERROR_BOOTLOADER_VERSION ∧
    checkSpec K c p &&& K.UPDT_CONFIG_ERROR_VENDOR_ID =
      flagIf (p.vendor_id ≠ c.vendor_id) K.UPDT_CONFIG_ERROR_VENDOR_ID ∧
    checkSpec K c p &&& K.UPDT_CONFIG_ERROR_MODEL_ID =
      flagIf (p.model_id ≠ c.model_id) K.UPDT_CONFIG_ERROR_MODEL_ID ∧
    checkSpec K c p &&& K.UPDT_CONFIG_ERROR_UNIQUE_ID =
      flagIf (p.unique_id ≠ c.unique_id) K.UPDT_CONFIG_ERROR_UNIQUE_ID ∧
    checkSpec K c p &&& K.UPDT_CONFIG_WARNING_FIRMWARE_VERSION =
      flagIf (p.firmware_version ≥ c.firmware_version)
        K.UPDT_CONFIG_WARNING_FIRMWARE_VERSION ∧
    checkSpec K c p &&& K.UPDT_CONFIG_WARNING_APPLICATION_VERSION =
      flagIf (p.application_version ≥ c.application_version)
        K.UPDT_CONFIG_WARNING_APPLICATION_VERSION := by
  simp only [Independent, validationConsts, List.pairwise_cons, List.mem_cons,
    List.mem_singleton, forall_eq_or_imp, forall_eq, List.not_mem_nil, implies_true,
    and_true, List.Pairwise.nil, ne_eq, IsEmpty.forall_iff] at hK
  obtain ⟨-, ⟨h12, h13, h14, h15, h16, h17, h18⟩, ⟨h23, h24, h25, h26, h27, h28⟩,
    ⟨h34, h35, h36, h37, h38⟩, ⟨h45, h46, h47, h48⟩, ⟨h56, h57, h58⟩, ⟨h67, h68⟩, h78⟩ := hK
  have sym : ∀ {a b : Nat}, a &&& b = 0 → b &&& a = 0 := by
    intro a b h; rw [Nat.and_comm]; exact h
  simp only [checkSpec, Nat.and_distrib_right, flagIf_and_self,
    flagIf_and_disjoint _ _ _ h12, flagIf_and_disjoint _ _ _ h13,
    flagIf_and_disjoint _ _ _ h14, flagIf_and_disjoint _ _ _ h15,
    flagIf_and_disjoint _ _ _ h16, flagIf_and_disjoint _ _ _ h17,
    flagIf_and_disjoint _ _ _ h18, flagIf_and_disjoint _ _ _ h23,
    flagIf_and_disjoint _ _ _ h24, flagIf_and_disjoint _ _ _ h25,
    flagIf_and_disjoint _ _ _ h26, flagIf_and_disjoint _ _ _ h27,
    flagIf_and_disjoint _ _ _ h28, flagIf_and_disjoint _ _ _ h34,
    flagIf_and_disjoint _ _ _ h35, flagIf_and_disjoint _ _ _ h36,
    flagIf_and_disjoint _ _ _ h37, flagIf_and_disjoint _ _ _ h38,
    flagIf_and_disjoint _ _ _ h45, flagIf_and_disjoint _ _ _ h46,
    flagIf_and_disjoint _ _ _ h47, flagIf_and_disjoint _ _ _ h48,
    flagIf_and_disjoint _ _ _ h56, flagIf_and_disjoint _ _ _ h57,
    flagIf_and_disjoint _ _ _ h58, flagIf_and_disjoint _ _ _ h67,
    flagIf_and_disjoint _ _ _ h68, flagIf_and_disjoint _ _ _ h78,
    flagIf_and_disjoint _ _ _ (sym h12), flagIf_and_disjoint _ _ _ (sym h13),
    flagIf_and_disjoint _ _ _ (sym h14), flagIf_and_disjoint _ _ _ (sym h15),
    flagIf_and_disjoint _ _ _ (sym h16), flagIf_and_disjoint _ _ _ (sym h17),
    flagIf_and_disjoint _ _ _ (sym h18), flagIf_and_disjoint _ _ _ (sym h23),
    flagIf_and_disjoint _ _ _ (sym h24), flagIf_and_disjoint _ _ _ (sym h25),
    flagIf_and_disjoint _ _ _ (sym h26), flagIf_and_disjoint _ _ _ (sym h27),
    flagIf_and_disjoint _ _ _ (sym h28), flagIf_and_disjoint _ _ _ (sym h34),
    flagIf_and_disjoint _ _ _ (sym h35), flagIf_and_disjoint _ _ _ (sym h36),
    flagIf_and_disjoint _ _ _ (sym h37), flagIf_and_disjoint _ _ _ (sym h38),
    flagIf_and_disjoint _ _ _ (sym h45), flagIf_and_disjoint _ _ _ (sym h46),
    flagIf_and_disjoint _ _ _ (sym h47), flagIf_and_disjoint _ _ _ (sym h48),
    flagIf_and_disjoint _ _ _ (sym h56), flagIf_and_disjoint _ _ _ (sym h57),
    flagIf_and_disjoint _ _ _ (sym h58), flagIf_and_disjoint _ _ _ (sym h67),
    flagIf_and_disjoint _ _ _ (sym h68), flagIf_and_disjoint _ _ _ (sym h78),
    Nat.zero_or, Nat.or_zero, and_self]

/-- What `UPDT_configSet` leaves in the state for a size that passes its gate. -/
theorem set_accepted (K : UPDT_configConsts) (be : Bool) (st : UPDT_state) (config : Bytes) :
    UPDT_configSet K be st config UPDT_CONFIG_SIZE =
      { st with
        UPDT_config_new := UPDT_configParse be config UPDT_CONFIG_SIZE
        UPDT_config_old := UPDT_configParse be (fun i => st.store (UPDT_CONFIG_ADDRESS + i))
          UPDT_CONFIG_SIZE
        UPDT_config_flags := st.UPDT_config_flags |||
          checkSpec K (UPDT_configParse be config UPDT_CONFIG_SIZE)
            (UPDT_configParse be (fun i => st.store (UPDT_CONFIG_ADDRESS + i))
              UPDT_CONFIG_SIZE) } := by
  simp only [UPDT_configSet, ne_eq, not_true_eq_false, if_false, checks_eq_spec]

/-- What `UPDT_configSet` leaves in the state for a size its gate rejects. -/
theorem set_rejected (K : UPDT_configConsts) (be : Bool) (st : UPDT_state) (config : Bytes)
    (size : Nat) (h : size ≠ UPDT_CONFIG_SIZE) :
    UPDT_configSet K be st config size =
      { st with UPDT_config_flags := K.UPDT_CONFIG_ERROR_INVALID_SIZE } := by
  have h2 : UPDT_CONFIG_SIZE ≠ size := fun e => h e.symm
  simp only [UPDT_configSet, if_pos h2]

/-- The outcome of `UPDT_configWrite` with a bound handle. -/
theorem write_bound (st : UPDT_state) (h : st.UPDT_config_fd ≥ 0) :
    UPDT_configWrite st = some
      ({ st with
          UPDT_config_old := { st.UPDT_config_old with
            firmware_version := st.UPDT_config_new.firmware_version
            application_version := st.UPDT_config_new.application_version }
          UPDT_config_buffer := UPDT_configFormat_stores st.UPDT_config_buffer
            { st.UPDT_config_old with
              firmware_version := st.UPDT_config_new.firmware_version
              application_version := st.UPDT_config_new.application_version }
          store := fun i => if i < 28 then
              UPDT_configFormat_stores st.UPDT_config_buffer
                { st.UPDT_config_old with
                  firmware_version := st.UPDT_config_new.firmware_version
                  application_version := st.UPDT_config_new.application_version } i
            else st.store i }, 28) := by
  simp only [UPDT_configWrite, if_pos h, UPDT_configFormat, if_true, ciaaPOSIX_write,
    UPDT_CONFIG_ADDRESS, Nat.zero_le, true_and, Nat.zero_add, Nat.sub_zero, Nat.cast_ofNat]

/-- The outcome of `UPDT_configSetResponse` called with size 28. -/
theorem setResponse_28 (be : Bool) (st : UPDT_state) (buffer : Bytes) :
    UPDT_configSetResponse be st buffer 28 = some
      ({ st with UPDT_config_flags := UPDT_utilsNtohl be st.UPDT_config_flags },
        setByte (setByte (setByte (setByte
          (UPDT_configFormat_stores buffer st.UPDT_config_old)
          28 (UPDT_utilsNtohl be st.UPDT_config_flags >>> 24))
          29 (UPDT_utilsNtohl be st.UPDT_config_flags >>> 16))
          30 (UPDT_utilsNtohl be st.UPDT_config_flags >>> 8))
          31 (UPDT_utilsNtohl be st.UPDT_config_flags), 0) := by
  simp only [UPDT_configSetResponse, UPDT_configFormat, if_true, Nat.reduceAdd]

/-- The bytes of a 32-bit word given most significant byte first. -/
theorem be4_bytes (a0 a1 a2 a3 : Nat) (h0 : a0 < 256) (h1 : a1 < 256) (h2 : a2 < 256)
    (h3 : a3 < 256) :
    (a0 * 2 ^ 24 + a1 * 2 ^ 16 + a2 * 2 ^ 8 + a3) / 2 ^ 24 % 256 = a0 ∧
    (a0 * 2 ^ 24 + a1 * 2 ^ 16 + a2 * 2 ^ 8 + a3) / 2 ^ 16 % 256 = a1 ∧
    (a0 * 2 ^ 24 + a1 * 2 ^ 16 + a2 * 2 ^ 8 + a3) / 2 ^ 8 % 256 = a2 ∧
    (a0 * 2 ^ 24 + a1 * 2 ^ 16 + a2 * 2 ^ 8 + a3) % 256 = a3 := by
  refine ⟨?_, ?_, ?_, ?_⟩ <;> omega

/-- On a little-endian host the four status bytes of the response are the
status least significant byte first, and the recorded status is left
byte-reversed. -/
theorem setResponse_littleEndian (st : UPDT_state) (buffer : Bytes) :
    ∃ st' out, UPDT_configSetResponse false st buffer 28 = some (st', out, 0) ∧
      out 28 = st.UPDT_config_flags % 256 ∧
      out 29 = st.UPDT_config_flags / 2 ^ 8 % 256 ∧
      out 30 = st.UPDT_config_flags / 2 ^ 16 % 256 ∧
      out 31 = st.UPDT_config_flags / 2 ^ 24 % 256 ∧
      st'.UPDT_config_flags = bswap32 st.UPDT_config_flags := by
  obtain ⟨b0, b1, b2, b3⟩ := be4_bytes (st.UPDT_config_flags % 256)
    (st.UPDT_config_flags / 2 ^ 8 % 256) (st.UPDT_config_flags / 2 ^ 16 % 256)
    (st.UPDT_config_flags / 2 ^ 24 % 256) (Nat.mod_lt _ (by decide))
    (Nat.mod_lt _ (by decide)) (Nat.mod_lt _ (by decide)) (Nat.mod_lt _ (by decide))
  refine ⟨_, _, setResponse_28 false st buffer, ?_, ?_, ?_, ?_, rfl⟩ <;>
    simp only [setByte, UPDT_utilsNtohl, bswap32, Nat.shiftRight_eq_div_pow, if_true,
      if_false, Bool.false_eq_true, Nat.reduceEqDiff, b0, b1, b2, b3]

/-- On a big-endian host the four status bytes of the response are the status
most significant byte first, the first 28 bytes the encoding of the persisted
record, and the recorded status is unchanged. -/
theorem setResponse_bigEndian (st : UPDT_state) (buffer : Bytes) :
    ∃ st' out, UPDT_configSetResponse true st buffer 28 = some (st', out, 0) ∧
      (∀ i, i < 28 → out i = UPDT_configFormat_stores buffer st.UPDT_config_old i) ∧
      out 28 = st.UPDT_config_flags / 2 ^ 24 % 256 ∧
      out 29 = st.UPDT_config_flags / 2 ^ 16 % 256 ∧
      out 30 = st.UPDT_config_flags / 2 ^ 8 % 256 ∧
      out 31 = st.UPDT_config_flags % 256 ∧
      st'.UPDT_config_flags = st.UPDT_config_flags % 2 ^ 32 := by
  refine ⟨_, _, setResponse_28 true st buffer, ?_, ?_, ?_, ?_, ?_, rfl⟩
  · intro i hi
    simp only [setByte]
    rw [if_neg (by omega), if_neg (by omega), if_neg (by omega), if_neg (by omega)]
  all_goals
    simp only [setByte, UPDT_utilsNtohl, Nat.shiftRight_eq_div_pow, if_true,
      Nat.reduceEqDiff, if_false]
    omega

/-! ## Further lemmas on the operations -/

/-- `UPDT_configWrite` aborts on its assertion when no handle is bound. -/
theorem write_unbound (st : UPDT_state) (h : st.UPDT_config_fd < 0) :
    UPDT_configWrite st = none := by
  have h2 : ¬ st.UPDT_config_fd ≥ 0 := by omega
  simp only [UPDT_configWrite, if_neg h2]

/-- `UPDT_configSet` leaves the handle as it is. -/
theorem set_fd (K : UPDT_configConsts) (be : Bool) (st : UPDT_state) (config : Bytes)
    (size : Nat) : (UPDT_configSet K be st config size).UPDT_config_fd = st.UPDT_config_fd := by
  unfold UPDT_configSet
  split <;> rfl

/-- `UPDT_configSetResponse` succeeds exactly for size 28. -/
theorem setResponse_none (be : Bool) (st : UPDT_state) (buffer : Bytes) (size : Nat)
    (h : size ≠ 28) : UPDT_configSetResponse be st buffer size = none := by
  simp only [UPDT_configSetResponse, UPDT_configFormat, if_neg h]

/-- The bytes `UPDT_configFormat` stores depend on the packed fields through
their declared widths only. -/
theorem stores_reduceWidths (buf : Bytes) (r : UPDT_configType) :
    UPDT_configFormat_stores buf (reduceWidths r) = UPDT_configFormat_stores buf r := by
  funext i
  by_cases h : i < 28
  · interval_cases i <;>
      simp only [stores_0, stores_1, stores_2, stores_3, stores_4, stores_5, stores_6,
        stores_7, stores_8, stores_9, stores_10, stores_11, stores_12, stores_13, stores_14,
        stores_15, stores_16, stores_17, stores_18, stores_19, stores_20, stores_21,
        stores_22, stores_23, stores_24, stores_25, stores_26, stores_27, reduceWidths] <;>
      omega
  · rw [stores_ge buf _ i (by omega), stores_ge buf _ i (by omega)]

/-- Re-encoding a decoded buffer stores the bytes the buffer held. -/
theorem stores_parse (be : Bool) (b buf : Bytes) (n i : Nat)
    (hb : ∀ i, i < 28 → b i < 256) (hi : i < 28) :
    UPDT_configFormat_stores buf (UPDT_configParse be b n) i = b i := by
  have e0 := hb 0 (by omega); have e1 := hb 1 (by omega); have e2 := hb 2 (by omega)
  have e3 := hb 3 (by omega); have e4 := hb 4 (by omega); have e5 := hb 5 (by omega)
  have e6 := hb 6 (by omega); have e7 := hb 7 (by omega); have e8 := hb 8 (by omega)
  have e9 := hb 9 (by omega); have e10 := hb 10 (by omega); have e11 := hb 11 (by omega)
  have e12 := hb 12 (by omega); have e13 := hb 13 (by omega); have e14 := hb 14 (by omega)
  have e15 := hb 15 (by omega); have e16 := hb 16 (by omega); have e17 := hb 17 (by omega)
  have e18 := hb 18 (by omega); have e19 := hb 19 (by omega); have e20 := hb 20 (by omega)
  have e21 := hb 21 (by omega); have e22 := hb 22 (by omega); have e23 := hb 23 (by omega)
  have e24 := hb 24 (by omega); have e25 := hb 25 (by omega); have e26 := hb 26 (by omega)
  have e27 := hb 27 (by omega)
  clear hb
  rw [parse_eq]
  interval_cases i <;>
    simp only [stores_0, stores_1, stores_2, stores_3, stores_4, stores_5, stores_6,
      stores_7, stores_8, stores_9, stores_10, stores_11, stores_12, stores_13, stores_14,
      stores_15, stores_16, stores_17, stores_18, stores_19, stores_20, stores_21,
      stores_22, stores_23, stores_24, stores_25, stores_26, stores_27] <;>
    omega

/-! ## Codec theorems -/

/-- C1. Round trip: for every record whose fields fit their declared widths,
`UPDT_configFormat` (called with size 28) succeeds and `UPDT_configParse` of the
bytes it stored is the original record, on either host byte order and whatever
the buffer held before. -/
theorem parse_format_roundtrip (be : Bool) (buf : Bytes) (n : Nat) (r : UPDT_configType)
    (h : FitsWidths r) :
    (UPDT_configFormat buf 28 r).map (fun out => UPDT_configParse be out n) = some r := by
  obtain ⟨h1, h2, h3, h4, h5, h6, h7, h8, h9, h10⟩ := h
  simp only [UPDT_configFormat, if_true, Option.map_some', parse_stores,
    Nat.mod_eq_of_lt h1, Nat.mod_eq_of_lt h2, Nat.mod_eq_of_lt h3, Nat.mod_eq_of_lt h4,
    Nat.mod_eq_of_lt h5, Nat.mod_eq_of_lt h6, Nat.mod_eq_of_lt h7, Nat.mod_eq_of_lt h8,
    Nat.mod_eq_of_lt h9, Nat.mod_eq_of_lt h10]

/-- Witness of C1 at `sampleRecord`. -/
theorem parse_format_roundtrip_witness :
    FitsWidths sampleRecord ∧
    (UPDT_configFormat sampleBytes 28 sampleRecord).map
      (fun out => UPDT_configParse false out 28) = some sampleRecord :=
  ⟨by decide, parse_format_roundtrip false sampleBytes 28 sampleRecord (by decide)⟩

/-- C6. Encode layout: for every record whose fields fit their declared widths,
`UPDT_configFormat` called with size 28 succeeds, the cells 0..27 of the buffer
then hold the layout of the specification (`layoutSpec`), and no cell from index
28 on is written. -/
theorem format_layout (buf : Bytes) (r : UPDT_configType) (h : FitsWidths r) :
    ∃ out, UPDT_configFormat buf 28 r = some out ∧
      (List.range 28).map out = layoutSpec r ∧ ∀ i, 28 ≤ i → out i = buf i := by
  obtain ⟨h1, h2, h3, h4, h5, h6, h7, h8, h9, h10⟩ := h
  refine ⟨UPDT_configFormat_stores buf r, by simp [UPDT_configFormat], ?_,
    fun i hi => stores_ge buf r i hi⟩
  have hr : List.range 28 = [0, 1, 2, 3, 4, 5, 6, 7, 8, 9, 10, 11, 12, 13, 14, 15, 16, 17,
      18, 19, 20, 21, 22, 23, 24, 25, 26, 27] := by decide
  simp only [hr, List.map, layoutSpec, bigEndianBytes, List.cons_append, List.nil_append,
    List.singleton_append, stores_0, stores_1,
    stores_2, stores_3, stores_4, stores_5, stores_6, stores_7, stores_8, stores_9,
    stores_10, stores_11, stores_12, stores_13, stores_14, stores_15, stores_16,
    stores_17, stores_18, stores_19, stores_20, stores_21, stores_22, stores_23,
    stores_24, stores_25, stores_26, stores_27, List.cons.injEq, and_true]
  refine ⟨?_, ?_, ?_, ?_, ?_, ?_, ?_, ?_, ?_, ?_, ?_, ?_, ?_, ?_, ?_, ?_, ?_, ?_, ?_, ?_,
    ?_, ?_, ?_, ?_, ?_, ?_, ?_, ?_⟩ <;> first | rfl | omega

/-- Witness of C6 at `sampleRecord`. -/
theorem format_layout_witness :
    FitsWidths sampleRecord ∧
    ∃ out, UPDT_configFormat sampleBytes 28 sampleRecord = some out ∧
      (List.range 28).map out = layoutSpec sampleRecord ∧
      ∀ i, 28 ≤ i → out i = sampleBytes i :=
  ⟨by decide, format_layout sampleBytes sampleRecord (by decide)⟩

/-- C7. Decode layout: for every input whose 28 cells are bytes,
`UPDT_configParse` yields reserved1 = b[0], firmwareVersion = the big-endian
value of b[1..3], bootloaderFlags = b[4], bootloaderVersion = big-endian
b[5..7], reserved2 = b[8], applicationVersion = big-endian b[9..11], vendorId =
b[12], modelId = big-endian b[13..15], uniqueId = big-endian b[16..23], dataSize
= big-endian b[24..27], on either host byte order; every decoded 8-bit field is
below 2^8 and every decoded 24-bit field below 2^24. -/
theorem parse_layout (be : Bool) (b : Bytes) (n : Nat) (hb : ∀ i, i < 28 → b i < 256) :
    (UPDT_configParse be b n).reserved1 = b 0 ∧
    (UPDT_configParse be b n).firmware_version = bigEndianValue [b 1, b 2, b 3] ∧
    (UPDT_configParse be b n).bootloader_flags = b 4 ∧
    (UPDT_configParse be b n).bootloader_version = bigEndianValue [b 5, b 6, b 7] ∧
    (UPDT_configParse be b n).reserved2 = b 8 ∧
    (UPDT_configParse be b n).application_version = bigEndianValue [b 9, b 10, b 11] ∧
    (UPDT_configParse be b n).vendor_id = b 12 ∧
    (UPDT_configParse be b n).model_id = bigEndianValue [b 13, b 14, b 15] ∧
    (UPDT_configParse be b n).unique_id =
      bigEndianValue [b 16, b 17, b 18, b 19, b 20, b 21, b 22, b 23] ∧
    (UPDT_configParse be b n).data_size = bigEndianValue [b 24, b 25, b 26, b 27] ∧
    (UPDT_configParse be b n).reserved1 < 2 ^ 8 ∧
    (UPDT_configParse be b n).bootloader_flags < 2 ^ 8 ∧
    (UPDT_configParse be b n).reserved2 < 2 ^ 8 ∧
    (UPDT_configParse be b n).vendor_id < 2 ^ 8 ∧
    (UPDT_configParse be b n).firmware_version < 2 ^ 24 ∧
    (UPDT_configParse be b n).bootloader_version < 2 ^ 24 ∧
    (UPDT_configParse be b n).application_version < 2 ^ 24 ∧
    (UPDT_configParse be b n).model_id < 2 ^ 24 := by
  have e0 := hb 0 (by omega); have e1 := hb 1 (by omega); have e2 := hb 2 (by omega)
  have e3 := hb 3 (by omega); have e4 := hb 4 (by omega); have e5 := hb 5 (by omega)
  have e6 := hb 6 (by omega); have e7 := hb 7 (by omega); have e8 := hb 8 (by omega)
  have e9 := hb 9 (by omega); have e10 := hb 10 (by omega); have e11 := hb 11 (by omega)
  have e12 := hb 12 (by omega); have e13 := hb 13 (by omega); have e14 := hb 14 (by omega)
  have e15 := hb 15 (by omega); have e16 := hb 16 (by omega); have e17 := hb 17 (by omega)
  have e18 := hb 18 (by omega); have e19 := hb 19 (by omega); have e20 := hb 20 (by omega)
  have e21 := hb 21 (by omega); have e22 := hb 22 (by omega); have e23 := hb 23 (by omega)
  have e24 := hb 24 (by omega); have e25 := hb 25 (by omega); have e26 := hb 26 (by omega)
  have e27 := hb 27 (by omega)
  simp only [parse_eq, bigEndianValue, List.foldl]
  refine ⟨?_, ?_, ?_, ?_, ?_, ?_, ?_, ?_, ?_, ?_, ?_, ?_, ?_, ?_, ?_, ?_, ?_, ?_⟩ <;> omega

/-- Witness of C7 at `sampleBytes`: the decoded reserved1 is cell 0, the decoded
firmwareVersion the big-endian value of cells 1..3. -/
theorem parse_layout_witness :
    (∀ i, i < 28 → sampleBytes i < 256) ∧
    (UPDT_configParse false sampleBytes 28).reserved1 = sampleBytes 0 ∧
    (UPDT_configParse false sampleBytes 28).firmware_version =
      bigEndianValue [sampleBytes 1, sampleBytes 2, sampleBytes 3] :=
  have h := parse_layout false sampleBytes 28
    (fun i _ => Nat.mod_lt (i + 1) (by decide))
  ⟨fun i _ => Nat.mod_lt (i + 1) (by decide), h.1, h.2.1⟩

/-! ## Validation, merge and response theorems -/

/-- C4. Validator reference definition: for independent status constants and
every candidate and persisted record, the validation statements of
`UPDT_configSet`, started from an empty status, yield the union of the
specification (`checkSpec`), and each bit is set exactly when its condition
holds: ReservedNonzero iff reserved1 or reserved2 of the candidate is not 0,
BootloaderFlagsChanged iff the candidate's bootloaderFlags is not 0,
BootloaderVersionViolation iff persisted.bootloaderVersion >
candidate.applicationVersion, the three mismatch bits iff the identity fields
differ, the two warnings iff the persisted version is >= the candidate's.  The
C condition `0 != reserved1 | reserved2` holds exactly when reserved1 or
reserved2 is not 0.  In `UPDT_configSet` itself, for a size that passes the
gate, the status afterwards is the status before ORed with that union for the
decoded candidate and persisted record. -/
theorem set_validation_bits (K : UPDT_configConsts) (hK : Independent K)
    (candidate persisted : UPDT_configType) :
    UPDT_configSet_checks K candidate persisted 0 = checkSpec K candidate persisted ∧
    (UPDT_configSet_checks K candidate persisted 0 &&& K.UPDT_CONFIG_ERROR_RESERVED ≠ 0 ↔
      (candidate.reserved1 ≠ 0 ∨ candidate.reserved2 ≠ 0)) ∧
    (UPDT_configSet_checks K candidate persisted 0 &&& K.UPDT_CONFIG_ERROR_BOOTLOADER_FLAGS ≠ 0
      ↔ candidate.bootloader_flags ≠ 0) ∧
    (UPDT_configSet_checks K candidate persisted 0 &&& K.UPDT_CONFIG_ERROR_BOOTLOADER_VERSION
      ≠ 0 ↔ persisted.bootloader_version > candidate.application_version) ∧
    (UPDT_configSet_checks K candidate persisted 0 &&& K.UPDT_CONFIG_ERROR_VENDOR_ID ≠ 0 ↔
      persisted.vendor_id ≠ candidate.vendor_id) ∧
    (UPDT_configSet_checks K candidate persisted 0 &&& K.UPDT_CONFIG_ERROR_MODEL_ID ≠ 0 ↔
      persisted.model_id ≠ candidate.model_id) ∧
    (UPDT_configSet_checks K candidate persisted 0 &&& K.UPDT_CONFIG_ERROR_UNIQUE_ID ≠ 0 ↔
      persisted.unique_id ≠ candidate.unique_id) ∧
    (UPDT_configSet_checks K candidate persisted 0 &&& K.UPDT_CONFIG_WARNING_FIRMWARE_VERSION
      ≠ 0 ↔ persisted.firmware_version ≥ candidate.firmware_version) ∧
    (UPDT_configSet_checks K candidate persisted 0 &&&
      K.UPDT_CONFIG_WARNING_APPLICATION_VERSION ≠ 0 ↔
      persisted.application_version ≥ candidate.application_version) ∧
    ((((if 0 ≠ candidate.reserved1 then 1 else 0) ||| candidate.reserved2) ≠ 0) ↔
      (candidate.reserved1 ≠ 0 ∨ candidate.reserved2 ≠ 0)) ∧
    (∀ (be : Bool) (st : UPDT_state) (config : Bytes),
      (UPDT_configSet K be st config UPDT_CONFIG_SIZE).UPDT_config_flags =
        st.UPDT_config_flags |||
          checkSpec K (UPDT_configParse be config UPDT_CONFIG_SIZE)
            (UPDT_configParse be (fun i => st.store (UPDT_CONFIG_ADDRESS + i))
              UPDT_CONFIG_SIZE)) := by
  obtain ⟨a1, a2, a3, a4, a5, a6, a7, a8⟩ := checkSpec_and K hK candidate persisted
  have hz := hK.1
  simp only [validationConsts, List.mem_cons, List.mem_singleton, forall_eq_or_imp, forall_eq,
    List.not_mem_nil, implies_true, and_true, IsEmpty.forall_iff] at hz
  obtain ⟨z1, z2, z3, z4, z5, z6, z7, z8⟩ := hz
  rw [checks_eq_spec, Nat.zero_or, a1, a2, a3, a4, a5, a6, a7, a8]
  exact ⟨rfl, flagIf_ne_zero _ _ z1, flagIf_ne_zero _ _ z2, flagIf_ne_zero _ _ z3,
    flagIf_ne_zero _ _ z4, flagIf_ne_zero _ _ z5, flagIf_ne_zero _ _ z6,
    flagIf_ne_zero _ _ z7, flagIf_ne_zero _ _ z8, reserved_condition _ _,
    fun be st config => by rw [set_accepted]⟩

/-- Witness of C4 at the sample constants and scenario 2. -/
theorem set_validation_bits_witness :
    Independent sampleConsts ∧
    UPDT_configSet_checks sampleConsts scenarioCandidateVendor scenarioPersisted 0 =
      checkSpec sampleConsts scenarioCandidateVendor scenarioPersisted :=
  ⟨by decide,
    (set_validation_bits sampleConsts (by decide) scenarioCandidateVendor
      scenarioPersisted).1⟩

/-- C5, evaluation of the code.  The length gate of `UPDT_configSet` compares
with `UPDT_CONFIG_SIZE` = 0x18: a payload of 28 bytes is rejected, the status
becoming `UPDT_CONFIG_ERROR_INVALID_SIZE` with nothing decoded, and a payload
of 24 bytes is the one decoded and validated. -/
theorem set_length_gate (K : UPDT_configConsts) (be : Bool) (st : UPDT_state)
    (config : Bytes) :
    UPDT_configSet K be st config 28 =
      { st with UPDT_config_flags := K.UPDT_CONFIG_ERROR_INVALID_SIZE } ∧
    UPDT_configSet K be st config 24 =
      { st with
        UPDT_config_new := UPDT_configParse be config UPDT_CONFIG_SIZE
        UPDT_config_old := UPDT_configParse be (fun i => st.store (UPDT_CONFIG_ADDRESS + i))
          UPDT_CONFIG_SIZE
        UPDT_config_flags := UPDT_configSet_checks K
          (UPDT_configParse be config UPDT_CONFIG_SIZE)
          (UPDT_configParse be (fun i => st.store (UPDT_CONFIG_ADDRESS + i)) UPDT_CONFIG_SIZE)
          st.UPDT_config_flags } :=
  ⟨set_rejected K be st config 28 (by decide), rfl⟩

/-- C9, evaluation of the code.  On a little-endian host, with the recorded
status 0x00000008, `UPDT_configSetResponse` stores 0x08, 0, 0, 0 in bytes
28..31, the status least significant byte first, and leaves the recorded status
byte-reversed, 0x08000000. -/
theorem setResponse_status_bytes_reversed :
    (UPDT_configSetResponse false
      { scenarioState with UPDT_config_flags := 0x08 } zeroBytes 28).map
      (fun r => ([r.2.1 28, r.2.1 29, r.2.1 30, r.2.1 31], r.1.UPDT_config_flags))
      = some ([0x08, 0, 0, 0], 0x08000000) := by
  decide

/-- C11, counterexample.  Given the stated size 27, and given 0,
`UPDT_configParse` produces the record of the payload all the same. -/
theorem parse_ignores_size :
    UPDT_configParse false (payloadOf scenarioCandidate) 27 = scenarioCandidate ∧
    UPDT_configParse false (payloadOf scenarioCandidate) 0 = scenarioCandidate := by
  refine ⟨by decide, by decide⟩

/-- C11, amended.  `UPDT_configParse` has no length check: its result does not
depend on the stated size.  The length is checked before decoding by
`UPDT_configSet`: for a size that fails its gate the status becomes
`UPDT_CONFIG_ERROR_INVALID_SIZE` and no record is produced, the candidate and
the persisted record keeping their values. -/
theorem parse_has_no_length_check (K : UPDT_configConsts) (be : Bool) (st : UPDT_state)
    (config : Bytes) (size n : Nat) (h : size ≠ UPDT_CONFIG_SIZE) :
    UPDT_configParse be config size = UPDT_configParse be config n ∧
    (UPDT_configSet K be st config size).UPDT_config_flags =
      K.UPDT_CONFIG_ERROR_INVALID_SIZE ∧
    (UPDT_configSet K be st config size).UPDT_config_new = st.UPDT_config_new ∧
    (UPDT_configSet K be st config size).UPDT_config_old = st.UPDT_config_old := by
  rw [set_rejected K be st config size h]
  exact ⟨rfl, rfl, rfl, rfl⟩

/-- Witness of C11 (amended) at size 27. -/
theorem parse_has_no_length_check_witness :
    (27 : Nat) ≠ UPDT_CONFIG_SIZE ∧
    (UPDT_configSet sampleConsts false scenarioState (payloadOf scenarioCandidate)
      27).UPDT_config_flags = sampleConsts.UPDT_CONFIG_ERROR_INVALID_SIZE :=
  ⟨by decide, (parse_has_no_length_check sampleConsts false scenarioState
    (payloadOf scenarioCandidate) 27 28 (by decide)).2.1⟩

/-- C14. Invalid-length path: for every size the gate of `UPDT_configSet`
rejects, the status afterwards is exactly `UPDT_CONFIG_ERROR_INVALID_SIZE`,
whatever it was before, and nothing else changes: the candidate record, the
persisted record, the block store, the buffer and the handle are as before. -/
theorem set_invalid_length (K : UPDT_configConsts) (be : Bool) (st : UPDT_state)
    (config : Bytes) (size : Nat) (h : size ≠ UPDT_CONFIG_SIZE) :
    (UPDT_configSet K be st config size).UPDT_config_flags =
      K.UPDT_CONFIG_ERROR_INVALID_SIZE ∧
    (UPDT_configSet K be st config size).UPDT_config_new = st.UPDT_config_new ∧
    (UPDT_configSet K be st config size).UPDT_config_old = st.UPDT_config_old ∧
    (UPDT_configSet K be st config size).store = st.store ∧
    (UPDT_configSet K be st config size).UPDT_config_buffer = st.UPDT_config_buffer ∧
    (UPDT_configSet K be st config size).UPDT_config_fd = st.UPDT_config_fd := by
  rw [set_rejected K be st config size h]
  exact ⟨rfl, rfl, rfl, rfl, rfl, rfl⟩

/-- Witness of C14: a payload of 27 bytes, from the status 0xFF. -/
theorem set_invalid_length_witness :
    (27 : Nat) ≠ UPDT_CONFIG_SIZE ∧
    (UPDT_configSet sampleConsts false
      { scenarioState with UPDT_config_flags := 0xFF } (payloadOf scenarioCandidate)
      27).UPDT_config_flags = sampleConsts.UPDT_CONFIG_ERROR_INVALID_SIZE :=
  ⟨by decide, (set_invalid_length sampleConsts false
    { scenarioState with UPDT_config_flags := 0xFF } (payloadOf scenarioCandidate) 27
    (by decide)).1⟩

/-- C15. Handle state machine: after `UPDT_configClear`, `UPDT_configWrite`
aborts on its assertion `UPDT_config_fd >= 0` (the result `none`, reached
before the record, the buffer or the store is touched), also after a
`UPDT_configSet` or a `UPDT_configSetResponse` in between; `UPDT_configInit`
with a handle h >= 0 returns 0 and binds h, replacing the earlier handle, and
`UPDT_configWrite` then passes its assertion. -/
theorem handle_state_machine (K : UPDT_configConsts) (be : Bool) (st : UPDT_state)
    (config buffer : Bytes) (size : Nat) (h : Int) (hh : h ≥ 0) :
    UPDT_configWrite (UPDT_configClear st) = none ∧
    UPDT_configWrite (UPDT_configSet K be (UPDT_configClear st) config size) = none ∧
    (∀ r, UPDT_configSetResponse be (UPDT_configClear st) buffer size = some r →
      UPDT_configWrite r.1 = none) ∧
    (UPDT_configInit st h).2 = 0 ∧
    (UPDT_configInit st h).1.UPDT_config_fd = h ∧
    (UPDT_configInit (UPDT_configClear st) h).1.UPDT_config_fd = h ∧
    (UPDT_configWrite (UPDT_configInit st h).1).isSome = true ∧
    (UPDT_configWrite (UPDT_configInit (UPDT_configClear st) h).1).isSome = true := by
  refine ⟨write_unbound _ (by simp [UPDT_configClear]),
    write_unbound _ (by rw [set_fd]; simp [UPDT_configClear]), ?_, rfl, rfl, rfl, ?_, ?_⟩
  · intro r hr
    by_cases hs : size = 28
    · subst hs
      rw [setResponse_28] at hr
      cases hr
      exact write_unbound _ (by simp [UPDT_configClear])
    · rw [setResponse_none be _ buffer size hs] at hr
      cases hr
  · rw [write_bound _ (show (UPDT_configInit st h).1.UPDT_config_fd ≥ 0 from hh)]
    rfl
  · rw [write_bound _
      (show (UPDT_configInit (UPDT_configClear st) h).1.UPDT_config_fd ≥ 0 from hh)]
    rfl

/-- Witness of C15 at handle 3. -/
theorem handle_state_machine_witness :
    (3 : Int) ≥ 0 ∧
    UPDT_configWrite (UPDT_configClear scenarioState) = none ∧
    (UPDT_configWrite (UPDT_configInit (UPDT_configClear scenarioState) 3).1).isSome = true :=
  have h := handle_state_machine sampleConsts false scenarioState
    (payloadOf scenarioCandidate) zeroBytes 28 3 (by decide)
  ⟨by decide, h.1, h.2.2.2.2.2.2.2⟩

/-- C16, counterexample.  With the stated size 32 `UPDT_configSetResponse`
aborts, on either host; with the stated size 28, less than 32, it succeeds;
with 40 it aborts. -/
theorem setResponse_capacity_32_fails :
    (UPDT_configSetResponse false scenarioState zeroBytes 32).isSome = false ∧
    (UPDT_configSetResponse true scenarioState zeroBytes 32).isSome = false ∧
    (UPDT_configSetResponse false scenarioState zeroBytes 28).isSome = true ∧
    (UPDT_configSetResponse false scenarioState zeroBytes 40).isSome = false := by
  refine ⟨by decide, by decide, by decide, by decide⟩

/-- C16, amended.  `UPDT_configSetResponse` has no capacity check: it succeeds
exactly when its size argument is 28, the assertion of `UPDT_configFormat`;
it then returns 0 and writes no cell of the destination from index 32 on. -/
theorem setResponse_size (be : Bool) (st : UPDT_state) (buffer : Bytes) (size : Nat) :
    ((UPDT_configSetResponse be st buffer size).isSome = true ↔ size = 28) ∧
    (∀ st' out ret, UPDT_configSetResponse be st buffer size = some (st', out, ret) →
      ret = 0 ∧ ∀ i, 32 ≤ i → out i = buffer i) := by
  by_cases hs : size = 28
  · subst hs
    rw [setResponse_28]
    refine ⟨by simp, ?_⟩
    intro st' out ret hr
    simp only [Option.some.injEq, Prod.mk.injEq] at hr
    obtain ⟨-, ho, hret⟩ := hr
    refine ⟨hret.symm, ?_⟩
    intro i hi
    rw [← ho]
    simp only [setByte]
    rw [if_neg (by omega), if_neg (by omega), if_neg (by omega), if_neg (by omega)]
    exact stores_ge buffer _ i (by omega)
  · rw [setResponse_none be st buffer size hs]
    refine ⟨by simp [hs], ?_⟩
    intro st' out ret hr
    cases hr

/-- Witness of C16 (amended) at size 28. -/
theorem setResponse_size_witness :
    (UPDT_configSetResponse false scenarioState zeroBytes 28).isSome = true :=
  (setResponse_size false scenarioState zeroBytes 28).1.mpr rfl

/-- C17. Silent truncation: for every record (uniqueId below 2^64, dataSize
below 2^32, the packed fields arbitrary), `UPDT_configFormat` stores the same
28 bytes as for the record reduced to the declared widths, and decoding the
encoding yields exactly that reduced record. -/
theorem format_truncates (be : Bool) (buf : Bytes) (n : Nat) (r : UPDT_configType)
    (hu : r.unique_id < 2 ^ 64) (hd : r.data_size < 2 ^ 32) :
    UPDT_configFormat buf 28 r = UPDT_configFormat buf 28 (reduceWidths r) ∧
    (UPDT_configFormat buf 28 r).map (fun out => UPDT_configParse be out n) =
      some (reduceWidths r) := by
  constructor
  · simp only [UPDT_configFormat, if_true, stores_reduceWidths]
  · simp only [UPDT_configFormat, if_true, Option.map_some', parse_stores, reduceWidths,
      Nat.mod_eq_of_lt hu, Nat.mod_eq_of_lt hd]

/-- Witness of C17 at `oversizedRecord`. -/
theorem format_truncates_witness :
    oversizedRecord.unique_id < 2 ^ 64 ∧ oversizedRecord.data_size < 2 ^ 32 ∧
    (UPDT_configFormat zeroBytes 28 oversizedRecord).map
      (fun out => UPDT_configParse false out 28) = some (reduceWidths oversizedRecord) :=
  ⟨by decide, by decide,
    (format_truncates false zeroBytes 28 oversizedRecord (by decide) (by decide)).2⟩

/-- C18. Byte-level round trip: for every input whose 28 cells are bytes,
`UPDT_configFormat` of the record `UPDT_configParse` decodes stores those 28
bytes again; hence two such inputs that decode to the same record agree on
their 28 bytes. -/
theorem format_parse_roundtrip (be : Bool) (b buf : Bytes) (n : Nat)
    (hb : ∀ i, i < 28 → b i < 256) :
    (∃ out, UPDT_configFormat buf 28 (UPDT_configParse be b n) = some out ∧
      ∀ i, i < 28 → out i = b i) ∧
    (∀ c : Bytes, (∀ i, i < 28 → c i < 256) →
      UPDT_configParse be c n = UPDT_configParse be b n → ∀ i, i < 28 → c i = b i) := by
  constructor
  · refine ⟨UPDT_configFormat_stores buf (UPDT_configParse be b n),
      by simp only [UPDT_configFormat, if_true], ?_⟩
    intro i hi
    exact stores_parse be b buf n i hb hi
  · intro c hc he i hi
    rw [← stores_parse be c buf n i hc hi, he, stores_parse be b buf n i hb hi]

/-- Witness of C18 at `sampleBytes`. -/
theorem format_parse_roundtrip_witness :
    (∀ i, i < 28 → sampleBytes i < 256) ∧
    ∃ out, UPDT_configFormat zeroBytes 28 (UPDT_configParse false sampleBytes 28) = some out ∧
      ∀ i, i < 28 → out i = sampleBytes i :=
  ⟨fun i _ => Nat.mod_lt (i + 1) (by decide),
    (format_parse_roundtrip false sampleBytes zeroBytes 28
      (fun i _ => Nat.mod_lt (i + 1) (by decide))).1⟩

/-- C20, evaluation of the code.  On a little-endian host, with the recorded
status 0x00000008, `UPDT_configSetResponse` leaves the recorded status
0x08000000, and the status bytes of two consecutive responses differ:
0x08, 0, 0, 0 and then 0, 0, 0, 0x08. -/
theorem setResponse_changes_status :
    (UPDT_configSetResponse false
      { scenarioState with UPDT_config_flags := 0x08 } zeroBytes 28).map
      (fun r => ([r.2.1 28, r.2.1 29, r.2.1 30, r.2.1 31], r.1.UPDT_config_flags,
        (UPDT_configSetResponse false r.1 zeroBytes 28).map
          (fun q => [q.2.1 28, q.2.1 29, q.2.1 30, q.2.1 31])))
      = some ([0x08, 0, 0, 0], 0x08000000, some [0, 0, 0, 0x08]) := by
  decide

end UPDT
